import Mathlib

/-!
Shallow embedding of the metric calculators and pipeline of the
Scottish Budget dashboard data generator
(`scripts/scottish_budget_data/calculators.py` and
`src/scottish_budget_data/pipeline.py`), together with theorems settling
the specification claims about them.

Numeric arrays are modelled as `List Rat` (exact arithmetic in place of
IEEE floats).  Where the Python code divides *without* a zero-guard, the
division is modelled by `npDiv`, which returns `none` on a zero
denominator — numpy produces NaN/Inf there, which is neither a zero
result nor a raised exception.  Where the code guards a division with an
explicit `if denom > 0 else 0`, the guard is modelled literally and the
division is exact.
-/

namespace ScottishBudget

/-- Division as numpy performs it on floats when the source has no
zero-guard: a zero denominator yields NaN/Inf (modelled as `none`),
otherwise the exact quotient. -/
def npDiv (a b : Rat) : Option Rat := if b = 0 then none else some (a / b)

/-- One row of the shared per-household decile table built by
`DistributionalImpactCalculator.calculate` (columns of `decile_df`). -/
structure DecileRow where
  household_income_decile : Int
  baseline_income : Rat
  reform_income : Rat
  income_change : Rat
  household_weight : Rat
  deriving DecidableEq, Repr

/-- The decile numbers iterated by `range(1, 11)` in the source. -/
def decileNums : List Int := [1, 2, 3, 4, 5, 6, 7, 8, 9, 10]

/-- `decile_df[decile_df["household_income_decile"] == decile_num]`. -/
def decileGroup (df : List DecileRow) (d : Int) : List DecileRow :=
  df.filter (fun r => r.household_income_decile == d)

/-- `(decile_data["income_change"] * decile_data["household_weight"]).sum()`. -/
def weightedChange (rows : List DecileRow) : Rat :=
  (rows.map (fun r => r.income_change * r.household_weight)).sum

/-- `(decile_data["baseline_income"] * decile_data["household_weight"]).sum()`. -/
def weightedBaseline (rows : List DecileRow) : Rat :=
  (rows.map (fun r => r.baseline_income * r.household_weight)).sum

/-- `decile_data["household_weight"].sum()`. -/
def totalWeight (rows : List DecileRow) : Rat :=
  (rows.map (fun r => r.household_weight)).sum

/-- The "all" label used by the winners/losers overall row. -/
def allLabel : String := "all"

/-- `str(decile_num)` label used by the winners/losers rows. -/
def decileLabel (d : Int) : String := toString d

/-- Output row of `DistributionalImpactCalculator`. -/
structure DIRow where
  reform_id : String
  reform_name : String
  year : Int
  decile : String
  value : Rat
  deriving DecidableEq, Repr

/-- Output row of `WinnersLosersCalculator`. -/
structure WLRow where
  reform_id : String
  reform_name : String
  year : Int
  decile : String
  avg_change : Rat
  deriving DecidableEq, Repr

namespace DistributionalImpactCalculator

/-- The `decile_names` field of the calculator. -/
def decile_names : List String :=
  ["1st", "2nd", "3rd", "4th", "5th", "6th", "7th", "8th", "9th", "10th"]

/-- Default label (never reached: the index is always in range). -/
def missingLabel : String := ""

/-- `DistributionalImpactCalculator.calculate_from_dataframe`
(calculators.py lines 181-219): per decile 1–10 with at least one row,
emit `100 · Σ(w·Δy)/Σ(w·y_base)` when the weighted baseline is positive
and `0` otherwise. -/
def calculate_from_dataframe (reform_id reform_name : String) (year : Int)
    (decile_df : List DecileRow) : List DIRow :=
  decileNums.filterMap (fun decile_num =>
    let decile_data := decileGroup decile_df decile_num
    if 0 < decile_data.length then
      let weighted_change := weightedChange decile_data
      let weighted_baseline := weightedBaseline decile_data
      let rel_change :=
        if 0 < weighted_baseline then weighted_change / weighted_baseline * 100
        else 0
      some { reform_id := reform_id, reform_name := reform_name, year := year,
             decile := decile_names.getD (decile_num - 1).toNat missingLabel,
             value := rel_change }
    else none)

end DistributionalImpactCalculator

namespace WinnersLosersCalculator

/-- The body of the per-decile loop of
`WinnersLosersCalculator.calculate_from_dataframe`
(calculators.py lines 248-267): a decile with at least one row emits a
row whose `avg_change` is `Σ(w·Δy)/Σ(w)` when the total weight is
positive and `0` otherwise; a decile with no rows emits nothing. -/
def decileRowOpt (reform_id reform_name : String) (year : Int)
    (decile_df : List DecileRow) (decile_num : Int) : Option WLRow :=
  let decile_data := decileGroup decile_df decile_num
  if 0 < decile_data.length then
    let weighted_change := weightedChange decile_data
    let total_hh := totalWeight decile_data
    some { reform_id := reform_id, reform_name := reform_name, year := year,
           decile := decileLabel decile_num,
           avg_change := if 0 < total_hh then weighted_change / total_hh else 0 }
  else none

/-- The unconditional "all" row (calculators.py lines 269-283). -/
def overallRow (reform_id reform_name : String) (year : Int)
    (decile_df : List DecileRow) : WLRow :=
  let overall_weighted := weightedChange decile_df
  let overall_hh := totalWeight decile_df
  { reform_id := reform_id, reform_name := reform_name, year := year,
    decile := allLabel,
    avg_change := if 0 < overall_hh then overall_weighted / overall_hh else 0 }

/-- `WinnersLosersCalculator.calculate_from_dataframe`
(calculators.py lines 238-285). -/
def calculate_from_dataframe (reform_id reform_name : String) (year : Int)
    (decile_df : List DecileRow) : List WLRow :=
  decileNums.filterMap (decileRowOpt reform_id reform_name year decile_df)
    ++ [overallRow reform_id reform_name year decile_df]

end WinnersLosersCalculator

/-- Output row of `MetricsCalculator`.  `gini_change` and
`poverty_change_pp` come from unguarded float divisions and are
therefore `Option`-valued (`none` = NaN/Inf). -/
structure MetricsRow where
  reform_id : String
  reform_name : String
  year : Int
  people_affected : Rat
  gini_change : Option Rat
  poverty_change_pp : Option Rat
  poverty_change_pct : Rat
  deriving DecidableEq, Repr

/-- `np.maximum(values, 0)` — the non-negative clamp applied to
equivalised incomes before the Gini computation. -/
def clampNonneg (xs : List Rat) : List Rat := xs.map (fun x => max x 0)

/-- Sum of the weights of a (value, weight) series. -/
def weightSum (ps : List (Rat × Rat)) : Rat := (ps.map (fun p => p.2)).sum

/-- Weighted sum of the values of a (value, weight) series. -/
def weightedValueSum (ps : List (Rat × Rat)) : Rat :=
  (ps.map (fun p => p.1 * p.2)).sum

/-- `Σ_i Σ_j w_i · w_j · |x_i − x_j|`, the numerator of the weighted
Gini coefficient by mean absolute difference. -/
def madSum (ps : List (Rat × Rat)) : Rat :=
  (ps.map (fun p => (ps.map (fun q => p.2 * q.2 * |p.1 - q.1|)).sum)).sum

/-- Modelled from the spec: `microdf.MicroSeries.gini()` is an external
dependency (not part of this repository); the spec describes it as "the
weighted Gini coefficient".  We use the standard weighted Gini by mean
absolute difference, `Σ_{i,j} w_i w_j |x_i − x_j| / (2 · Σw · Σwx)`,
which is undefined (NaN, here `none`) when the normaliser is zero. -/
def giniPairs (ps : List (Rat × Rat)) : Option Rat :=
  npDiv (madSum ps) (2 * weightSum ps * weightedValueSum ps)

/-- Weighted Gini of positionally aligned value and weight arrays. -/
def gini (values weights : List Rat) : Option Rat := giniPairs (values.zip weights)

/-- The Gini-change block of `MetricsCalculator.calculate`
(calculators.py lines 334-358): clamp incomes at zero, weight by
`household_weight · household_count_people`, and form the relative
change `(G_reform − G_baseline) / G_baseline` (unguarded division). -/
def giniChangeFromArrays (baseline_equiv reformed_equiv hh_weight hh_count :
    List Rat) : Option Rat :=
  let adjusted_weights := List.zipWith (fun w c => w * c) hh_weight hh_count
  let baseline_gini := gini (clampNonneg baseline_equiv) adjusted_weights
  let reformed_gini := gini (clampNonneg reformed_equiv) adjusted_weights
  match baseline_gini, reformed_gini with
  | some gb, some gr => npDiv (gr - gb) gb
  | _, _ => none

/-- The float literal `0.0001` used as the relative-change threshold. -/
def affectedThreshold : Rat := 1 / 10000

/-- The positionally zipped per-household units used by the
percent-affected block: ((baseline, reform), decile), (count, weight). -/
def metricRowsZip (baseline_income reform_income : List Rat)
    (household_decile : List Int) (hh_count hh_weight : List Rat) :
    List (((Rat × Rat) × Int) × (Rat × Rat)) :=
  ((baseline_income.zip reform_income).zip household_decile).zip
    (hh_count.zip hh_weight)

/-- `household_count_people * household_weight` for one unit. -/
def weightedPeopleOf (e : ((Rat × Rat) × Int) × (Rat × Rat)) : Rat :=
  e.2.1 * e.2.2

/-- `household_decile >= 1` for one unit. -/
def validDecileOf (e : ((Rat × Rat) × Int) × (Rat × Rat)) : Bool :=
  decide (1 ≤ e.1.2)

/-- `|Δ / max(y_base, 1)| > 0.0001` and classified, for one unit. -/
def affectedOf (e : ((Rat × Rat) × Int) × (Rat × Rat)) : Bool :=
  decide (affectedThreshold < |(e.1.1.2 - e.1.1.1) / max e.1.1.1 1|)
    && validDecileOf e

/-- `weighted_people[valid_deciles].sum()` (calculators.py line 329). -/
def totalClassifiedPeople (baseline_income reform_income : List Rat)
    (household_decile : List Int) (hh_count hh_weight : List Rat) : Rat :=
  (((metricRowsZip baseline_income reform_income household_decile hh_count
      hh_weight).filter validDecileOf).map weightedPeopleOf).sum

/-- `weighted_people[income_changed & valid_deciles].sum()`
(calculators.py line 328). -/
def affectedPeopleSum (baseline_income reform_income : List Rat)
    (household_decile : List Int) (hh_count hh_weight : List Rat) : Rat :=
  (((metricRowsZip baseline_income reform_income household_decile hh_count
      hh_weight).filter affectedOf).map weightedPeopleOf).sum

/-- The percent-affected block of `MetricsCalculator.calculate`
(calculators.py lines 303-332): weighted (by `count·weight`) share of
households in a classified decile whose relative income change
`Δ / max(y_base, 1)` exceeds the threshold in absolute value; `0` when
the classified weighted population is zero. -/
def percentAffected (baseline_income reform_income : List Rat)
    (household_decile : List Int) (hh_count hh_weight : List Rat) : Rat :=
  let people_affected := affectedPeopleSum baseline_income reform_income
    household_decile hh_count hh_weight
  let total_people := totalClassifiedPeople baseline_income reform_income
    household_decile hh_count hh_weight
  if 0 < total_people then people_affected / total_people * 100 else 0

/-- The poverty headcount rate
`person_weight[in_poverty].sum() / person_weight.sum() * 100`
(calculators.py lines 371-376).  The division by the total person
weight is written in the source with NO zero-guard, so it is modelled
with `npDiv`: a zero total person weight yields `none` (numpy NaN). -/
def povertyRate (in_poverty : List Bool) (person_weight : List Rat) :
    Option Rat :=
  let flagged := ((person_weight.zip in_poverty).filter (fun p => p.2)).map
    (fun p => p.1)
  (npDiv flagged.sum person_weight.sum).map (fun r => r * 100)

namespace MetricsCalculator

/-- `MetricsCalculator.calculate` (calculators.py lines 292-393) on the
arrays it extracts from the two simulations.  `poverty_change_pct`
guards on `baseline_rate > 0`; a NaN baseline rate fails that comparison
(as it does for floats), so the guard falls back to `0`. -/
def calculate_from_arrays (reform_id reform_name : String) (year : Int)
    (baseline_income reform_income : List Rat) (household_decile : List Int)
    (hh_count hh_weight : List Rat) (baseline_equiv reformed_equiv : List Rat)
    (baseline_poverty reformed_poverty : List Bool)
    (person_weight : List Rat) : MetricsRow :=
  let percent_affected := percentAffected baseline_income reform_income
    household_decile hh_count hh_weight
  let gini_change := giniChangeFromArrays baseline_equiv reformed_equiv
    hh_weight hh_count
  let baseline_rate := povertyRate baseline_poverty person_weight
  let reformed_rate := povertyRate reformed_poverty person_weight
  let poverty_pp :=
    match baseline_rate, reformed_rate with
    | some b, some r => some (r - b)
    | _, _ => none
  let poverty_pct :=
    match poverty_pp, baseline_rate with
    | some pp, some b => if 0 < b then pp / b * 100 else 0
    | _, _ => 0
  { reform_id := reform_id, reform_name := reform_name, year := year,
    people_affected := percent_affected, gini_change := gini_change,
    poverty_change_pp := poverty_pp, poverty_change_pct := poverty_pct }

end MetricsCalculator

/-- A microsimulation result (external collaborator): positionally
aligned per-unit arrays keyed by variable name and period.  Float,
integer and boolean dtypes are exposed through separate accessors. -/
structure Sim where
  calculate : String → Int → List Rat
  calculateInt : String → Int → List Int
  calculateBool : String → Int → List Bool

def var_student_loan_repayment : String := "student_loan_repayment"
def var_gov_balance : String := "gov_balance"
def var_household_net_income : String := "household_net_income"
def var_household_income_decile : String := "household_income_decile"
def var_household_weight : String := "household_weight"
def var_household_count_people : String := "household_count_people"
def var_equiv_household_net_income : String := "equiv_household_net_income"
def var_in_poverty_bhc : String := "in_poverty_bhc"
def var_person_weight : String := "person_weight"
def var_household_id : String := "household_id"
def var_num_children : String := "num_children"
def var_is_married : String := "is_married"

/-- Output row of `BudgetaryImpactCalculator`. -/
structure BudgetRow where
  reform_id : String
  reform_name : String
  year : Int
  value : Rat
  deriving DecidableEq, Repr

namespace BudgetaryImpactCalculator

/-- Reforms that diff `student_loan_repayment` instead of `gov_balance`
(calculators.py line 32). -/
def STUDENT_LOAN_REFORMS : List String := ["freeze_student_loan_thresholds"]

/-- `(reformed_array - baseline_array).sum()` (elementwise difference of
positionally aligned arrays, then sum). -/
def sumDiff (reformed_vals baseline_vals : List Rat) : Rat :=
  (List.zipWith (fun r b => r - b) reformed_vals baseline_vals).sum

/-- The per-year body of `BudgetaryImpactCalculator.calculate`
(calculators.py lines 53-74): student-loan reforms diff the
`student_loan_repayment` aggregate, all others diff `gov_balance`;
either way the summed difference is divided by 1e9. -/
def yearImpact (baseline reformed : Sim) (reform_id : String) (year : Int) :
    Rat :=
  if reform_id ∈ STUDENT_LOAN_REFORMS then
    sumDiff (reformed.calculate var_student_loan_repayment year)
      (baseline.calculate var_student_loan_repayment year) / 1000000000
  else
    sumDiff (reformed.calculate var_gov_balance year)
      (baseline.calculate var_gov_balance year) / 1000000000

/-- `BudgetaryImpactCalculator.calculate` (calculators.py lines 34-83). -/
def calculate (years : List Int) (baseline reformed : Sim)
    (reform_id reform_name : String) : List BudgetRow :=
  years.map (fun year =>
    { reform_id := reform_id, reform_name := reform_name, year := year,
      value := yearImpact baseline reformed reform_id year })

end BudgetaryImpactCalculator

/-- Output row of `HouseholdScatterCalculator`.  `household_id` is
present only when an id array was supplied. -/
structure ScatterRow where
  reform_id : String
  reform_name : String
  year : Int
  baseline_income : Rat
  income_change : Rat
  household_weight : Rat
  household_id : Option Int
  deriving DecidableEq, Repr

namespace HouseholdScatterCalculator

/-- The row built for index `i` of the input arrays
(calculators.py lines 630-642). -/
def mkRow (reform_id reform_name : String) (year : Int)
    (baseline_incomes income_changes weights : List Rat)
    (household_ids : Option (List Int)) (i : Nat) : ScatterRow :=
  { reform_id := reform_id, reform_name := reform_name, year := year,
    baseline_income := baseline_incomes.getD i 0,
    income_change := income_changes.getD i 0,
    household_weight := weights.getD i 0,
    household_id := household_ids.map (fun ids => ids.getD i 0) }

/-- `(baseline_incomes >= min_income) & (baseline_incomes <= max_income)`:
the closed income-window mask (calculators.py lines 624-626). -/
def inWindow (min_income max_income y : Rat) : Bool :=
  decide (min_income ≤ y) && decide (y ≤ max_income)

/-- `HouseholdScatterCalculator.calculate_from_arrays`
(calculators.py lines 600-644): one output row per index whose baseline
income lies in the closed window, in input order, with no sampling. -/
def calculate_from_arrays (min_income max_income : Rat)
    (reform_id reform_name : String) (year : Int)
    (baseline_incomes income_changes weights : List Rat)
    (household_ids : Option (List Int)) : List ScatterRow :=
  ((List.range baseline_incomes.length).filter (fun i =>
      inWindow min_income max_income (baseline_incomes.getD i 0))).map
    (mkRow reform_id reform_name year baseline_incomes income_changes weights
      household_ids)

/-- `HouseholdScatterCalculator.calculate` (calculators.py lines
566-598): extract the household arrays from the simulations and delegate
(`income_changes = reform − baseline`, ids always supplied). -/
def calculate (baseline reformed : Sim) (min_income max_income : Rat)
    (reform_id reform_name : String) (year : Int) : List ScatterRow :=
  let b := baseline.calculate var_household_net_income year
  let r := reformed.calculate var_household_net_income year
  calculate_from_arrays min_income max_income reform_id reform_name year b
    (List.zipWith (fun x y => x - y) r b)
    (baseline.calculate var_household_weight year)
    (some (baseline.calculateInt var_household_id year))

end HouseholdScatterCalculator

/-- One geographic unit: a row of the constituency reference table
(`code`, `name`) together with its row of the geography-to-household
weight matrix (the two inputs are row-aligned in the source). -/
structure Geo where
  code : String
  name : String
  weights : List Rat
  deriving DecidableEq, Repr

/-- Output row of `ConstituencyCalculator`.  `average_gain` is produced
by an unguarded division by the weighted count, hence `Option`. -/
structure ConstRow where
  reform_id : String
  year : Int
  constituency_code : String
  constituency_name : String
  average_gain : Option Rat
  relative_change : Rat
  deriving DecidableEq, Repr

namespace ConstituencyCalculator

/-- The per-geography body of `ConstituencyCalculator.calculate`
(calculators.py lines 670-696).  Modelled from microdf (external):
`MicroSeries.sum()` is `Σ value·weight` and `MicroSeries.count()` is the
weighted count `Σ weight`.  The divisions by the count are written with
no zero-guard in the source (`npDiv`); the relative change guards on
`avg_baseline > 0`, which a NaN fails. -/
def calcRow (reform_id : String) (year : Int)
    (baseline_income reform_income : List Rat) (g : Geo) : ConstRow :=
  let baseline_sum := (List.zipWith (fun v w => v * w) baseline_income
    g.weights).sum
  let reform_sum := (List.zipWith (fun v w => v * w) reform_income
    g.weights).sum
  let cnt := g.weights.sum
  let avg_change := npDiv (reform_sum - baseline_sum) cnt
  let avg_baseline := npDiv baseline_sum cnt
  let rel_change :=
    match avg_change, avg_baseline with
    | some ac, some ab => if 0 < ab then ac / ab * 100 else 0
    | _, _ => 0
  { reform_id := reform_id, year := year, constituency_code := g.code,
    constituency_name := g.name, average_gain := avg_change,
    relative_change := rel_change }

/-- `ConstituencyCalculator.calculate` (calculators.py lines 651-698). -/
def calculate (baseline reformed : Sim) (reform_id : String) (year : Int)
    (geos : List Geo) : List ConstRow :=
  geos.map (calcRow reform_id year
    (baseline.calculate var_household_net_income year)
    (reformed.calculate var_household_net_income year))

end ConstituencyCalculator

/-- A household as seen by `DemographicConstituencyCalculator`:
positionally aligned baseline/reform income, children count and marital
status. -/
structure Household where
  baseline_income : Rat
  reform_income : Rat
  num_children : Int
  is_married : Bool
  deriving DecidableEq, Repr

/-- Output row of `DemographicConstituencyCalculator`. -/
structure DemoRow where
  reform_id : String
  year : Int
  constituency_code : String
  constituency_name : String
  num_children : String
  is_married : Bool
  average_gain : Rat
  relative_change : Rat
  household_count : Rat
  deriving DecidableEq, Repr

/-- The children buckets `range(5)` iterated by the source. -/
def childBuckets : List Int := [0, 1, 2, 3, 4]

/-- The marital buckets `[True, False]` iterated by the source. -/
def marriedBuckets : List Bool := [true, false]

/-- The capped-bucket label used for four or more children. -/
def fourPlusLabel : String := "4+"

/-- `f"{n}+" if n == 4 else str(n)` (calculators.py lines 792-796). -/
def childLabel (n : Int) : String :=
  if n == 4 then fourPlusLabel else toString n

namespace DemographicConstituencyCalculator

/-- `np.minimum(num_children, 4)` — the 4+ cap. -/
def childCap (n : Int) : Int := min n 4

/-- `(num_children_capped == n_children) & (is_married == married)`. -/
def demMask (n : Int) (married : Bool) (h : Household) : Bool :=
  (childCap h.num_children == n) && (h.is_married == married)

/-- `weights * mask`: the geography-specific weights of the households
in the (children, married) bucket, the rest zeroed. -/
def maskedWeights (hhs : List Household) (weights : List Rat) (n : Int)
    (married : Bool) : List Rat :=
  List.zipWith (fun h w => if demMask n married h then w else 0) hhs weights

/-- The body of the (geography, children, married) loop of
`DemographicConstituencyCalculator.calculate`
(calculators.py lines 759-802): skip when the bucket is empty
(`mask.sum() == 0`) or its masked weight total is zero; otherwise emit
average gain, relative change (guarded on a positive average baseline)
and the total masked weight as `household_count`. -/
def demoRow (reform_id : String) (year : Int) (g : Geo)
    (hhs : List Household) (n : Int) (married : Bool) : Option DemoRow :=
  if hhs.countP (demMask n married) = 0 then none
  else
    let masked := maskedWeights hhs g.weights n married
    let total_weight := masked.sum
    if total_weight = 0 then none
    else
      let avg_change := (List.zipWith
        (fun h w => (h.reform_income - h.baseline_income) * w) hhs
        masked).sum / total_weight
      let avg_baseline := (List.zipWith (fun h w => h.baseline_income * w)
        hhs masked).sum / total_weight
      let rel_change :=
        if 0 < avg_baseline then avg_change / avg_baseline * 100 else 0
      some { reform_id := reform_id, year := year,
             constituency_code := g.code, constituency_name := g.name,
             num_children := childLabel n, is_married := married,
             average_gain := avg_change, relative_change := rel_change,
             household_count := total_weight }

/-- The triple loop of `DemographicConstituencyCalculator.calculate`
(calculators.py lines 752-804) over the extracted household arrays. -/
def calcRows (reform_id : String) (year : Int) (geos : List Geo)
    (hhs : List Household) : List DemoRow :=
  geos.flatMap (fun g => childBuckets.flatMap (fun n =>
    marriedBuckets.filterMap (fun married =>
      demoRow reform_id year g hhs n married)))

/-- `DemographicConstituencyCalculator.calculate`
(calculators.py lines 724-804): extract the household arrays from the
simulations, zip them positionally and run the triple loop. -/
def calculate (baseline reformed : Sim) (reform_id : String) (year : Int)
    (geos : List Geo) : List DemoRow :=
  let b := baseline.calculate var_household_net_income year
  let r := reformed.calculate var_household_net_income year
  let nc := baseline.calculateInt var_num_children year
  let im := baseline.calculateBool var_is_married year
  let hhs := List.zipWith
    (fun (p : Rat × Rat) (q : Int × Bool) => Household.mk p.1 p.2 q.1 q.2)
    (b.zip r) (nc.zip im)
  calcRows reform_id year geos hhs

end DemographicConstituencyCalculator

/-- The per-household table assembled by
`DistributionalImpactCalculator.calculate` (calculators.py lines
165-173) before the unclassified-decile filter: one row per household
with decile, baseline income, reform income, change and weight, zipped
positionally from the simulation arrays. -/
def rawDecileTable (baseline reformed : Sim) (year : Int) : List DecileRow :=
  let b := baseline.calculate var_household_net_income year
  let r := reformed.calculate var_household_net_income year
  let d := baseline.calculateInt var_household_income_decile year
  let w := baseline.calculate var_household_weight year
  List.zipWith
    (fun (p : (Rat × Rat) × Int) wt =>
      DecileRow.mk p.2 p.1.1 p.1.2 (p.1.2 - p.1.1) wt)
    ((b.zip r).zip d) w

/-- `DistributionalImpactCalculator.calculate` (calculators.py lines
139-179): build the shared table, drop rows with
`household_income_decile < 1`, and return both the per-decile results
and the filtered table for reuse by other calculators. -/
def DistributionalImpactCalculator.calculate (baseline reformed : Sim)
    (reform_id reform_name : String) (year : Int) :
    List DIRow × List DecileRow :=
  let decile_df := (rawDecileTable baseline reformed year).filter
    (fun r => decide (1 ≤ r.household_income_decile))
  (DistributionalImpactCalculator.calculate_from_dataframe reform_id
    reform_name year decile_df, decile_df)

/-- `MetricsCalculator.calculate` (calculators.py lines 292-393) at the
simulation level: extract every array and delegate; the source returns a
one-element list. -/
def MetricsCalculator.calculate (baseline reformed : Sim)
    (reform_id reform_name : String) (year : Int) : List MetricsRow :=
  [MetricsCalculator.calculate_from_arrays reform_id reform_name year
    (baseline.calculate var_household_net_income year)
    (reformed.calculate var_household_net_income year)
    (baseline.calculateInt var_household_income_decile year)
    (baseline.calculate var_household_count_people year)
    (baseline.calculate var_household_weight year)
    (baseline.calculate var_equiv_household_net_income year)
    (reformed.calculate var_equiv_household_net_income year)
    (baseline.calculateBool var_in_poverty_bhc year)
    (reformed.calculateBool var_in_poverty_bhc year)
    (baseline.calculate var_person_weight year)]

/-- Output row of `IncomeCurveCalculator`. -/
structure CurveRow where
  reform_id : String
  reform_name : String
  year : Int
  employment_income : Rat
  baseline_net_income : Rat
  reform_net_income : Rat
  deriving DecidableEq, Repr

namespace IncomeCurveCalculator

/-- `np.linspace(0, max_income, num_points)`
(calculators.py lines 426-428). -/
def get_income_range (max_income : Rat) (num_points : Nat) : List Rat :=
  if num_points ≤ 1 then List.replicate num_points 0
  else (List.range num_points).map
    (fun i => max_income * i / ((num_points : Rat) - 1))

/-- `IncomeCurveCalculator.calculate` (calculators.py lines 495-551).
Modelled from the spec: the two `policyengine_uk.Simulation` runs on the
synthetic five-person household are external; they are supplied as
oracles `baseline_hnet` / `reform_hnet` giving the net-income array for
a year.  One row is emitted per grid point, pairing the fixed
employment-income grid with the two net-income arrays positionally. -/
def calculate (max_income : Rat) (num_points : Nat)
    (baseline_hnet reform_hnet : Int → List Rat)
    (reform_id reform_name : String) (year : Int) : List CurveRow :=
  let employment_incomes := get_income_range max_income num_points
  (List.range employment_incomes.length).map (fun i =>
    { reform_id := reform_id, reform_name := reform_name, year := year,
      employment_income := employment_incomes.getD i 0,
      baseline_net_income := (baseline_hnet year).getD i 0,
      reform_net_income := (reform_hnet year).getD i 0 })

end IncomeCurveCalculator

/-- `ReformResult` (models.py): the per-reform record aggregating every
calculator's rows across all configured years. -/
structure ReformResult where
  reform_id : String
  reform_name : String
  budgetary_impact : List BudgetRow
  distributional_impact : List DIRow
  winners_losers : List WLRow
  metrics : List MetricsRow
  income_curve : List CurveRow
  household_scatter : List ScatterRow
  constituency : List ConstRow
  demographic_constituency : List DemoRow

/-- `ReformProcessor._calculate_constituency` (pipeline.py lines
186-217): raises `FileNotFoundError` (here `Except.error`) when the
constituency weights file or reference file is absent, otherwise
computes both geography-dependent calculators.  The loaded weight matrix
and reference table are modelled together as `Option (List Geo)`
(`none` = at least one file missing). -/
def calculateConstituencyPair (constituency_data : Option (List Geo))
    (baseline reformed : Sim) (reform_id : String) (year : Int) :
    Except Unit (List ConstRow × List DemoRow) :=
  match constituency_data with
  | none => Except.error ()
  | some geos =>
      Except.ok
        (ConstituencyCalculator.calculate baseline reformed reform_id year
          geos,
         DemographicConstituencyCalculator.calculate baseline reformed
          reform_id year geos)

/-- `ReformProcessor.process` (pipeline.py lines 98-184): budgetary
impact once, then per year the distributional table and rows, the
winners/losers rows from the shared table, the summary metrics, the
income curve, the household scatter, and — inside a
`try/except FileNotFoundError: pass` — the two geography-dependent
calculators, whose failure skips only those two lists for that year. -/
def ReformProcessor.process (years : List Int)
    (constituency_data : Option (List Geo)) (income_curve_max : Rat)
    (income_curve_points : Nat) (scatter_min scatter_max : Rat)
    (baseline reformed : Sim) (curve_baseline curve_reform : Int → List Rat)
    (reform_id reform_name : String) : ReformResult :=
  { reform_id := reform_id, reform_name := reform_name,
    budgetary_impact := BudgetaryImpactCalculator.calculate years baseline
      reformed reform_id reform_name,
    distributional_impact := years.flatMap (fun year =>
      (DistributionalImpactCalculator.calculate baseline reformed reform_id
        reform_name year).1),
    winners_losers := years.flatMap (fun year =>
      WinnersLosersCalculator.calculate_from_dataframe reform_id reform_name
        year
        (DistributionalImpactCalculator.calculate baseline reformed reform_id
          reform_name year).2),
    metrics := years.flatMap (fun year =>
      MetricsCalculator.calculate baseline reformed reform_id reform_name
        year),
    income_curve := years.flatMap (fun year =>
      IncomeCurveCalculator.calculate income_curve_max income_curve_points
        curve_baseline curve_reform reform_id reform_name year),
    household_scatter := years.flatMap (fun year =>
      HouseholdScatterCalculator.calculate baseline reformed scatter_min
        scatter_max reform_id reform_name year),
    constituency := years.flatMap (fun year =>
      match calculateConstituencyPair constituency_data baseline reformed
        reform_id year with
      | Except.ok p => p.1
      | Except.error _ => []),
    demographic_constituency := years.flatMap (fun year =>
      match calculateConstituencyPair constituency_data baseline reformed
        reform_id year with
      | Except.ok p => p.2
      | Except.error _ => []) }

/-- The per-decile average change exactly as the winners/losers rows
emit it: `Σ(w·Δy)/Σ(w)` when the decile total weight is positive, `0`
otherwise (also `0` for a decile with no rows). -/
def decileAvg (df : List DecileRow) (d : Int) : Rat :=
  if 0 < totalWeight (decileGroup df d) then
    weightedChange (decileGroup df d) / totalWeight (decileGroup df d)
  else 0

/-- The weighted mean of the per-decile average changes, each decile
weighted by its total weight — the reference quantity of the
consistency check on the overall winners/losers row. -/
def decileWeightedMean (df : List DecileRow) : Rat :=
  (decileNums.map (fun d => totalWeight (decileGroup df d) * decileAvg df d)).sum
    / (decileNums.map (fun d => totalWeight (decileGroup df d))).sum

/-! Concrete inputs used by counterexamples and witnesses. -/

def exReformId : String := "reform_x"
def exReformName : String := "Reform X"

/-- One household in decile 1 with weight 0: the decile group is
nonempty but its total weight is zero. -/
def claim1CexDf : List DecileRow :=
  [{ household_income_decile := 1, baseline_income := 100,
     reform_income := 105, income_change := 5, household_weight := 0 }]

/-- One household in decile 2 with weight 0 (witness input). -/
def claim1WitDf : List DecileRow :=
  [{ household_income_decile := 2, baseline_income := 50,
     reform_income := 60, income_change := 10, household_weight := 0 }]

/-- One household in decile 1 with a negative baseline income: the
weighted baseline is nonzero but not positive. -/
def claim2CexDf : List DecileRow :=
  [{ household_income_decile := 1, baseline_income := -100,
     reform_income := -90, income_change := 10, household_weight := 1 }]

/-- One household in decile 3 with a positive weighted baseline
(witness input). -/
def claim2WitDf : List DecileRow :=
  [{ household_income_decile := 3, baseline_income := 200,
     reform_income := 210, income_change := 10, household_weight := 2 }]

/-- A person-weight array with zero total weight. -/
def claim3CexWeights : List Rat := [0]

/-- A person-weight array with nonzero total weight (witness input). -/
def claim3WitWeights : List Rat := [1]

/-- A baseline simulation in which the two candidate budget aggregates
are available and differ. -/
def claim4Base : Sim :=
  { calculate := fun v _ =>
      if v == var_student_loan_repayment then [2] else [40],
    calculateInt := fun _ _ => [], calculateBool := fun _ _ => [] }

/-- The matching reformed simulation: the student-loan diff is 3, the
government-balance diff is 60. -/
def claim4Reform : Sim :=
  { calculate := fun v _ =>
      if v == var_student_loan_repayment then [5] else [100],
    calculateInt := fun _ _ => [], calculateBool := fun _ _ => [] }

/-- The one configured student-loan-threshold reform id. -/
def slReformId : String := "freeze_student_loan_thresholds"

/-- A single geography with weights for two households. -/
def claim5Geo : Geo :=
  { code := "S14000001", name := "Aberdeen North", weights := [3, 4] }

/-- Two unmarried households with 5 children each. -/
def claim5Hhs : List Household :=
  [{ baseline_income := 100, reform_income := 110, num_children := 5,
     is_married := false },
   { baseline_income := 50, reform_income := 60, num_children := 5,
     is_married := false }]

/-- The end-to-end scenario of the spec: weights `[1, 1]`, baseline
incomes `[100, 200]`, reform incomes `[110, 180]`, deciles 1 and 2. -/
def claim7WitDf : List DecileRow :=
  [{ household_income_decile := 1, baseline_income := 100,
     reform_income := 110, income_change := 10, household_weight := 1 },
   { household_income_decile := 2, baseline_income := 200,
     reform_income := 180, income_change := -20, household_weight := 1 }]

def claim8EquivBase : List Rat := [1, 3]
def claim8EquivReform : List Rat := [2, 2]
def claim8Weights : List Rat := [1, 1]

/-! ## Helper lemmas -/

theorem decileLabel_injOn :
    ∀ d1 ∈ decileNums, ∀ d2 ∈ decileNums,
      decileLabel d1 = decileLabel d2 → d1 = d2 := by decide

theorem decileLabel_ne_all : ∀ d ∈ decileNums, decileLabel d ≠ allLabel := by
  decide

theorem mem_decileGroup {df : List DecileRow} {d : Int} {r : DecileRow}
    (h : r ∈ decileGroup df d) :
    r ∈ df ∧ r.household_income_decile = d := by
  have h' := List.mem_filter.mp h
  exact ⟨h'.1, by simpa using h'.2⟩

theorem decileRowOpt_eq_some {rid rname : String} {year : Int}
    {df : List DecileRow} {d : Int} {r : WLRow}
    (h : WinnersLosersCalculator.decileRowOpt rid rname year df d = some r) :
    0 < (decileGroup df d).length ∧ r.decile = decileLabel d
      ∧ r.avg_change =
        (if 0 < totalWeight (decileGroup df d) then
          weightedChange (decileGroup df d) / totalWeight (decileGroup df d)
        else 0) := by
  unfold WinnersLosersCalculator.decileRowOpt at h
  by_cases hlen : 0 < (decileGroup df d).length
  · simp only [if_pos hlen, Option.some.injEq] at h
    refine ⟨hlen, ?_, ?_⟩ <;> simp [← h]
  · simp [if_neg hlen] at h

/-! ## Claim C1 -/

/-- C1 counterexample: a decile group (decile 1) whose total household
weight is zero but which has a row in the table DOES produce an output
row, with `avg_change = 0` — refuting the claim that such a decile
produces no output row at all. -/
theorem claim1_counterexample :
    totalWeight (decileGroup claim1CexDf 1) = 0
    ∧ ∃ r ∈ WinnersLosersCalculator.calculate_from_dataframe exReformId
        exReformName 2026 claim1CexDf,
        r.decile = decileLabel 1 ∧ r.avg_change = 0 := by
  have htw : totalWeight (decileGroup claim1CexDf 1) = 0 := by
    simp [totalWeight, decileGroup, claim1CexDf]
  refine ⟨htw, ({ reform_id := exReformId, reform_name := exReformName,
                  year := 2026, decile := decileLabel 1,
                  avg_change := 0 } : WLRow), ?_, rfl, rfl⟩
  refine List.mem_append.mpr (Or.inl (List.mem_filterMap.mpr
    ⟨1, by decide, ?_⟩))
  unfold WinnersLosersCalculator.decileRowOpt
  rw [if_pos (by decide)]
  simp [htw]

/-- C1 (amended): for every decile DataFrame and decile 1-10, a decile
group with NO ROWS in the table produces no output row; a decile group
that has rows but zero total household weight is not skipped — it
produces a row with `avg_change = 0`. -/
theorem claim1_skip_is_by_row_presence (rid rname : String) (year : Int)
    (df : List DecileRow) (d : Int) (hd : d ∈ decileNums) :
    (decileGroup df d = [] →
      ∀ r ∈ WinnersLosersCalculator.calculate_from_dataframe rid rname year
        df, r.decile ≠ decileLabel d)
    ∧ (decileGroup df d ≠ [] → totalWeight (decileGroup df d) = 0 →
      ∃ r ∈ WinnersLosersCalculator.calculate_from_dataframe rid rname year
        df, r.decile = decileLabel d ∧ r.avg_change = 0) := by
  constructor
  · intro hempty r hr hlabel
    rcases List.mem_append.mp hr with hmem | hmem
    · rcases List.mem_filterMap.mp hmem with ⟨a, ha, hsome⟩
      obtain ⟨hlen, hdec, -⟩ := decileRowOpt_eq_some hsome
      have had : a = d := decileLabel_injOn a ha d hd (hdec.symm.trans hlabel)
      rw [had, hempty] at hlen
      simp at hlen
    · have hre : r = WinnersLosersCalculator.overallRow rid rname year df := by
        simpa using hmem
      have hall : r.decile = allLabel := by
        rw [hre]
        rfl
      exact decileLabel_ne_all d hd (hlabel.symm.trans hall)
  · intro hne hzero
    have hlen : 0 < (decileGroup df d).length := by
      cases hG : decileGroup df d with
      | nil => exact absurd hG hne
      | cons a t => simp [hG]
    refine ⟨({ reform_id := rid, reform_name := rname, year := year,
               decile := decileLabel d, avg_change := 0 } : WLRow),
      ?_, rfl, rfl⟩
    refine List.mem_append.mpr (Or.inl (List.mem_filterMap.mpr ⟨d, hd, ?_⟩))
    unfold WinnersLosersCalculator.decileRowOpt
    rw [if_pos hlen]
    have : ¬ 0 < totalWeight (decileGroup df d) := by rw [hzero]; exact lt_irrefl 0
    simp [this]

/-- C1 witness: the amended theorem applied to a table whose decile-2
group is nonempty with zero total weight. -/
theorem claim1_witness :
    ∃ r ∈ WinnersLosersCalculator.calculate_from_dataframe exReformId
      exReformName 2026 claim1WitDf,
      r.decile = decileLabel 2 ∧ r.avg_change = 0 :=
  (claim1_skip_is_by_row_presence exReformId exReformName 2026 claim1WitDf 2
    (by decide)).2 (by decide)
    (by simp [totalWeight, decileGroup, claim1WitDf])

/-! ## Claim C2 -/

/-- C2 counterexample: a decile-1 group whose weighted baseline income
is `-100` (nonzero) is reported with value `0`, not with the formula
value `100·Σ(w·Δy)/Σ(w·y_base) = -10` — the source guard is
`weighted_baseline > 0`, not `≠ 0`. -/
theorem claim2_counterexample :
    weightedBaseline (decileGroup claim2CexDf 1) ≠ 0
    ∧ weightedChange (decileGroup claim2CexDf 1)
        / weightedBaseline (decileGroup claim2CexDf 1) * 100 ≠ 0
    ∧ ∃ r ∈ DistributionalImpactCalculator.calculate_from_dataframe
        exReformId exReformName 2026 claim2CexDf,
        r.decile = "1st" ∧ r.value = 0 := by
  refine ⟨?_, ?_, ?_⟩
  · norm_num [weightedBaseline, decileGroup, claim2CexDf]
  · norm_num [weightedBaseline, weightedChange, decileGroup, claim2CexDf]
  · have hwb : ¬ 0 < weightedBaseline (decileGroup claim2CexDf 1) := by
      norm_num [weightedBaseline, decileGroup, claim2CexDf]
    refine ⟨({ reform_id := exReformId, reform_name := exReformName,
               year := 2026, decile := "1st", value := 0 } : DIRow),
      ?_, rfl, rfl⟩
    unfold DistributionalImpactCalculator.calculate_from_dataframe
    refine List.mem_filterMap.mpr ⟨1, by decide, ?_⟩
    rw [if_pos (by decide)]
    simp only [if_neg hwb]
    rfl

/-- C2 (amended): for every decile present in the table, the reported
value is `100·Σ(w·Δy)/Σ(w·y_base)` when the weighted baseline income is
POSITIVE, and exactly `0` when it is zero or negative. -/
theorem claim2_value_guard (rid rname : String) (year : Int)
    (df : List DecileRow) (d : Int) (hd : d ∈ decileNums)
    (hne : decileGroup df d ≠ []) :
    ∃ r ∈ DistributionalImpactCalculator.calculate_from_dataframe rid rname
      year df,
      r.decile = DistributionalImpactCalculator.decile_names.getD
        (d - 1).toNat DistributionalImpactCalculator.missingLabel
      ∧ r.value = (if 0 < weightedBaseline (decileGroup df d) then
          weightedChange (decileGroup df d)
            / weightedBaseline (decileGroup df d) * 100
        else 0) := by
  have hlen : 0 < (decileGroup df d).length := by
    cases hG : decileGroup df d with
    | nil => exact absurd hG hne
    | cons a t => simp [hG]
  refine ⟨({ reform_id := rid, reform_name := rname, year := year,
             decile := DistributionalImpactCalculator.decile_names.getD
               (d - 1).toNat DistributionalImpactCalculator.missingLabel,
             value := if 0 < weightedBaseline (decileGroup df d) then
                 weightedChange (decileGroup df d)
                   / weightedBaseline (decileGroup df d) * 100
               else 0 } : DIRow), ?_, rfl, rfl⟩
  unfold DistributionalImpactCalculator.calculate_from_dataframe
  refine List.mem_filterMap.mpr ⟨d, hd, ?_⟩
  rw [if_pos hlen]

/-- C2 witness: the amended theorem applied to a table whose decile-3
group has weighted baseline `400 > 0`; the reported value is
`100·20/400 = 5`. -/
theorem claim2_witness :
    ∃ r ∈ DistributionalImpactCalculator.calculate_from_dataframe exReformId
      exReformName 2026 claim2WitDf,
      r.decile = "3rd" ∧ r.value = 5 := by
  obtain ⟨r, hmem, hdc, hval⟩ := claim2_value_guard exReformId exReformName
    2026 claim2WitDf 3 (by decide) (by decide)
  refine ⟨r, hmem, hdc.trans (by decide), ?_⟩
  rw [hval]
  norm_num [weightedBaseline, weightedChange, decileGroup, claim2WitDf]

/-! ## Claim C3 -/

theorem povertyRate_eq_none_iff (bp : List Bool) (pw : List Rat) :
    povertyRate bp pw = none ↔ pw.sum = 0 := by
  by_cases h : pw.sum = 0 <;> simp [povertyRate, npDiv, h]

/-- C3 counterexample: with total person weight zero, the poverty-rate
division of `MetricsCalculator.calculate` is NOT guarded — the
percentage-point poverty change is NaN (`none`), not the zero value the
claim requires. -/
theorem claim3_counterexample :
    List.sum claim3CexWeights = 0
    ∧ (MetricsCalculator.calculate_from_arrays exReformId exReformName 2026
        [] [] [] [] [] [] [] [true] [false]
        claim3CexWeights).poverty_change_pp = none := by
  constructor
  · simp [claim3CexWeights]
  · simp [MetricsCalculator.calculate_from_arrays, povertyRate, npDiv,
      claim3CexWeights]

/-- C3 (amended): the guards that do exist substitute zero — a zero
total classified weighted population gives `people_affected = 0`, and a
non-positive (in particular zero) baseline poverty rate gives
`poverty_change_pct = 0` — but the poverty head-count rate division by
the total person weight is unguarded: a zero total person weight makes
`poverty_change_pp` NaN (`none`), not zero
(`poverty_change_pct` then falls back to 0 only because the NaN fails
the `baseline_rate > 0` comparison). -/
theorem claim3_degenerate_denominators (rid rname : String) (year : Int)
    (bi ri : List Rat) (hdec : List Int) (hc hw be re : List Rat)
    (bp rp : List Bool) (pw : List Rat) :
    (totalClassifiedPeople bi ri hdec hc hw = 0 →
      (MetricsCalculator.calculate_from_arrays rid rname year bi ri hdec hc
        hw be re bp rp pw).people_affected = 0)
    ∧ (pw.sum = 0 →
      (MetricsCalculator.calculate_from_arrays rid rname year bi ri hdec hc
        hw be re bp rp pw).poverty_change_pp = none
      ∧ (MetricsCalculator.calculate_from_arrays rid rname year bi ri hdec
          hc hw be re bp rp pw).poverty_change_pct = 0)
    ∧ (∀ b0 : Rat, povertyRate bp pw = some b0 → ¬ 0 < b0 →
      (MetricsCalculator.calculate_from_arrays rid rname year bi ri hdec hc
        hw be re bp rp pw).poverty_change_pct = 0) := by
  refine ⟨?_, ?_, ?_⟩
  · intro h0
    simp [MetricsCalculator.calculate_from_arrays, percentAffected, h0]
  · intro hs
    have hb : povertyRate bp pw = none := (povertyRate_eq_none_iff bp pw).mpr hs
    have hr : povertyRate rp pw = none := (povertyRate_eq_none_iff rp pw).mpr hs
    constructor <;> simp [MetricsCalculator.calculate_from_arrays, hb, hr]
  · intro b0 hb hpos
    have hs : pw.sum ≠ 0 := by
      intro h
      rw [(povertyRate_eq_none_iff bp pw).mpr h] at hb
      exact Option.noConfusion hb
    have hr : povertyRate rp pw =
        some ((((pw.zip rp).filter (fun p => p.2)).map (fun p => p.1)).sum
          / pw.sum * 100) := by
      simp [povertyRate, npDiv, hs]
    simp [MetricsCalculator.calculate_from_arrays, hb, hr, if_neg hpos]

/-- C3 witness: at a zero total person weight the guarded metrics are
zero while `poverty_change_pp` is `none`; at a nonzero person weight
with a zero baseline poverty rate, `poverty_change_pct` is zero. -/
theorem claim3_witness :
    ((MetricsCalculator.calculate_from_arrays exReformId exReformName 2026
        [] [] [] [] [] [] [] [] [] claim3CexWeights).people_affected = 0
      ∧ (MetricsCalculator.calculate_from_arrays exReformId exReformName 2026
          [] [] [] [] [] [] [] [] [] claim3CexWeights).poverty_change_pp
        = none
      ∧ (MetricsCalculator.calculate_from_arrays exReformId exReformName 2026
          [] [] [] [] [] [] [] [] [] claim3CexWeights).poverty_change_pct
        = 0)
    ∧ (MetricsCalculator.calculate_from_arrays exReformId exReformName 2026
        [] [] [] [] [] [] [] [false] [false]
        claim3WitWeights).poverty_change_pct = 0 := by
  have hA := claim3_degenerate_denominators exReformId exReformName 2026
    [] [] [] [] [] [] [] [] [] claim3CexWeights
  have hB := claim3_degenerate_denominators exReformId exReformName 2026
    [] [] [] [] [] [] [] [false] [false] claim3WitWeights
  refine ⟨⟨hA.1 (by simp [totalClassifiedPeople, metricRowsZip]),
    (hA.2.1 (by simp [claim3CexWeights])).1,
    (hA.2.1 (by simp [claim3CexWeights])).2⟩,
    hB.2.2 0 ?_ (by norm_num)⟩
  simp [povertyRate, npDiv, claim3WitWeights]

/-! ## Claim C4 -/

/-- C4: for a student-loan-threshold reform id every budget row diffs
the `student_loan_repayment` aggregate, and for every other reform id
every budget row diffs the `gov_balance` aggregate, one row per
configured year, value `(reform − baseline).sum() / 1e9`. -/
theorem claim4_aggregate_selection (years : List Int)
    (baseline reformed : Sim) (reform_id reform_name : String) :
    (reform_id ∈ BudgetaryImpactCalculator.STUDENT_LOAN_REFORMS →
      BudgetaryImpactCalculator.calculate years baseline reformed reform_id
        reform_name
      = years.map (fun year =>
          { reform_id := reform_id, reform_name := reform_name, year := year,
            value := BudgetaryImpactCalculator.sumDiff
                (reformed.calculate var_student_loan_repayment year)
                (baseline.calculate var_student_loan_repayment year)
              / 1000000000 }))
    ∧ (reform_id ∉ BudgetaryImpactCalculator.STUDENT_LOAN_REFORMS →
      BudgetaryImpactCalculator.calculate years baseline reformed reform_id
        reform_name
      = years.map (fun year =>
          { reform_id := reform_id, reform_name := reform_name, year := year,
            value := BudgetaryImpactCalculator.sumDiff
                (reformed.calculate var_gov_balance year)
                (baseline.calculate var_gov_balance year)
              / 1000000000 })) := by
  constructor
  · intro hmem
    simp [BudgetaryImpactCalculator.calculate,
      BudgetaryImpactCalculator.yearImpact, hmem]
  · intro hmem
    simp [BudgetaryImpactCalculator.calculate,
      BudgetaryImpactCalculator.yearImpact, hmem]

/-- C4 witness: concrete simulations in which the two aggregates differ
(student-loan diff 3, balance diff 60); the student-loan reform id
selects the repayment aggregate. -/
theorem claim4_witness :
    BudgetaryImpactCalculator.calculate [2026] claim4Base claim4Reform
      slReformId exReformName
      = [{ reform_id := slReformId, reform_name := exReformName,
           year := 2026,
           value := BudgetaryImpactCalculator.sumDiff
               (claim4Reform.calculate var_student_loan_repayment 2026)
               (claim4Base.calculate var_student_loan_repayment 2026)
             / 1000000000 }]
    ∧ BudgetaryImpactCalculator.sumDiff
        (claim4Reform.calculate var_gov_balance 2026)
        (claim4Base.calculate var_gov_balance 2026)
      ≠ BudgetaryImpactCalculator.sumDiff
          (claim4Reform.calculate var_student_loan_repayment 2026)
          (claim4Base.calculate var_student_loan_repayment 2026) := by
  constructor
  · have h := (claim4_aggregate_selection [2026] claim4Base claim4Reform
      slReformId exReformName).1 (by decide)
    simpa using h
  · have hg1 : claim4Reform.calculate var_gov_balance 2026 = [100] := by
      decide
    have hg2 : claim4Base.calculate var_gov_balance 2026 = [40] := by decide
    have hs1 : claim4Reform.calculate var_student_loan_repayment 2026 = [5] :=
      by decide
    have hs2 : claim4Base.calculate var_student_loan_repayment 2026 = [2] :=
      by decide
    rw [hg1, hg2, hs1, hs2]
    norm_num [BudgetaryImpactCalculator.sumDiff]

/-! ## Claim C6 -/

/-- C6: the scatter output has exactly one row per index whose baseline
income lies in the closed window (no sampling), and a household's row is
present iff `min_income ≤ y_base ≤ max_income` — boundary values
included. -/
theorem claim6_scatter_window (min_income max_income : Rat)
    (rid rname : String) (year : Int) (b ch w : List Rat)
    (ids : Option (List Int)) :
    ((HouseholdScatterCalculator.calculate_from_arrays min_income max_income
        rid rname year b ch w ids).length
      = (List.range b.length).countP (fun i =>
          HouseholdScatterCalculator.inWindow min_income max_income
            (b.getD i 0)))
    ∧ (∀ i : Nat, i < b.length →
        ((min_income ≤ b.getD i 0 ∧ b.getD i 0 ≤ max_income) ↔
          HouseholdScatterCalculator.mkRow rid rname year b ch w ids i
            ∈ HouseholdScatterCalculator.calculate_from_arrays min_income
              max_income rid rname year b ch w ids)) := by
  constructor
  · simp [HouseholdScatterCalculator.calculate_from_arrays,
      List.countP_eq_length_filter]
  · intro i hi
    constructor
    · intro hwin
      apply List.mem_map_of_mem
      refine List.mem_filter.mpr ⟨List.mem_range.mpr hi, ?_⟩
      unfold HouseholdScatterCalculator.inWindow
      rw [Bool.and_eq_true, decide_eq_true_eq, decide_eq_true_eq]
      exact hwin
    · intro hmem
      obtain ⟨j, hj, hrow⟩ := List.mem_map.mp hmem
      have hjw : HouseholdScatterCalculator.inWindow min_income max_income
          (b.getD j 0) = true := (List.mem_filter.mp hj).2
      have hwinj : min_income ≤ b.getD j 0 ∧ b.getD j 0 ≤ max_income := by
        simpa [HouseholdScatterCalculator.inWindow] using hjw
      have hbj : b.getD j 0 = b.getD i 0 := by
        have hba := congrArg ScatterRow.baseline_income hrow
        simpa [HouseholdScatterCalculator.mkRow] using hba
      exact ⟨hbj ▸ hwinj.1, hbj ▸ hwinj.2⟩

/-! ## Claim C9 -/

theorem flatMap_const_nil {α β : Type} (l : List α) :
    l.flatMap (fun _ => ([] : List β)) = [] := by
  induction l with
  | nil => rfl
  | cons a t ih => simp [List.flatMap_cons, ih]

/-- C9: when the constituency data is absent, `ReformProcessor.process`
produces empty constituency and demographic-constituency lists, while
every other metric family is exactly what it is when the data is
present — only the two geography calculators are skipped and the run
does not abort. -/
theorem claim9_missing_constituency_skips_geography (years : List Int)
    (cdata : List Geo) (income_curve_max : Rat) (income_curve_points : Nat)
    (scatter_min scatter_max : Rat) (baseline reformed : Sim)
    (curve_baseline curve_reform : Int → List Rat)
    (reform_id reform_name : String) :
    (ReformProcessor.process years none income_curve_max income_curve_points
        scatter_min scatter_max baseline reformed curve_baseline curve_reform
        reform_id reform_name).constituency = []
    ∧ (ReformProcessor.process years none income_curve_max
        income_curve_points scatter_min scatter_max baseline reformed
        curve_baseline curve_reform reform_id
        reform_name).demographic_constituency = []
    ∧ (ReformProcessor.process years none income_curve_max
        income_curve_points scatter_min scatter_max baseline reformed
        curve_baseline curve_reform reform_id reform_name).budgetary_impact
      = (ReformProcessor.process years (some cdata) income_curve_max
          income_curve_points scatter_min scatter_max baseline reformed
          curve_baseline curve_reform reform_id
          reform_name).budgetary_impact
    ∧ (ReformProcessor.process years none income_curve_max
        income_curve_points scatter_min scatter_max baseline reformed
        curve_baseline curve_reform reform_id
        reform_name).distributional_impact
      = (ReformProcessor.process years (some cdata) income_curve_max
          income_curve_points scatter_min scatter_max baseline reformed
          curve_baseline curve_reform reform_id
          reform_name).distributional_impact
    ∧ (ReformProcessor.process years none income_curve_max
        income_curve_points scatter_min scatter_max baseline reformed
        curve_baseline curve_reform reform_id reform_name).winners_losers
      = (ReformProcessor.process years (some cdata) income_curve_max
          income_curve_points scatter_min scatter_max baseline reformed
          curve_baseline curve_reform reform_id reform_name).winners_losers
    ∧ (ReformProcessor.process years none income_curve_max
        income_curve_points scatter_min scatter_max baseline reformed
        curve_baseline curve_reform reform_id reform_name).metrics
      = (ReformProcessor.process years (some cdata) income_curve_max
          income_curve_points scatter_min scatter_max baseline reformed
          curve_baseline curve_reform reform_id reform_name).metrics
    ∧ (ReformProcessor.process years none income_curve_max
        income_curve_points scatter_min scatter_max baseline reformed
        curve_baseline curve_reform reform_id reform_name).income_curve
      = (ReformProcessor.process years (some cdata) income_curve_max
          income_curve_points scatter_min scatter_max baseline reformed
          curve_baseline curve_reform reform_id reform_name).income_curve
    ∧ (ReformProcessor.process years none income_curve_max
        income_curve_points scatter_min scatter_max baseline reformed
        curve_baseline curve_reform reform_id reform_name).household_scatter
      = (ReformProcessor.process years (some cdata) income_curve_max
          income_curve_points scatter_min scatter_max baseline reformed
          curve_baseline curve_reform reform_id
          reform_name).household_scatter := by
  refine ⟨?_, ?_, rfl, rfl, rfl, rfl, rfl, rfl⟩
  · simp [ReformProcessor.process, calculateConstituencyPair,
      flatMap_const_nil]
  · simp [ReformProcessor.process, calculateConstituencyPair,
      flatMap_const_nil]

/-! ## Claim C10 -/

/-- C10: the shared table returned by
`DistributionalImpactCalculator.calculate` contains only rows with
decile ≥ 1 (it is exactly the raw table filtered to classified rows),
and the winners/losers "all" row is the overall row computed from that
filtered table, so it averages only over classified households. -/
theorem claim10_shared_table_classified (baseline reformed : Sim)
    (rid rname : String) (year : Int) :
    (∀ r ∈ (DistributionalImpactCalculator.calculate baseline reformed rid
        rname year).2, 1 ≤ r.household_income_decile)
    ∧ (DistributionalImpactCalculator.calculate baseline reformed rid rname
        year).2
      = (rawDecileTable baseline reformed year).filter
          (fun r => decide (1 ≤ r.household_income_decile))
    ∧ (WinnersLosersCalculator.calculate_from_dataframe rid rname year
        (DistributionalImpactCalculator.calculate baseline reformed rid rname
          year).2).getLast?
      = some (WinnersLosersCalculator.overallRow rid rname year
          (DistributionalImpactCalculator.calculate baseline reformed rid
            rname year).2) := by
  refine ⟨?_, rfl, ?_⟩
  · intro r hr
    have hf := (List.mem_filter.mp hr).2
    simpa using hf
  · simp [WinnersLosersCalculator.calculate_from_dataframe]

/-! ## Claim C7 -/

theorem sum_eq_zero_all_zero {l : List Rat} (hn : ∀ x ∈ l, 0 ≤ x)
    (hz : l.sum = 0) : ∀ x ∈ l, x = 0 := by
  induction l with
  | nil => intro x hx; cases hx
  | cons a t ih =>
    intro x hx
    rw [List.sum_cons] at hz
    have ha : 0 ≤ a := hn a (List.mem_cons_self a t)
    have ht : 0 ≤ t.sum :=
      List.sum_nonneg (fun y hy => hn y (List.mem_cons_of_mem a hy))
    have ha0 : a = 0 := by linarith
    have htz : t.sum = 0 := by linarith
    rcases List.mem_cons.mp hx with rfl | hx2
    · exact ha0
    · exact ih (fun y hy => hn y (List.mem_cons_of_mem a hy)) htz x hx2

theorem totalWeight_nonneg {rows : List DecileRow}
    (h : ∀ r ∈ rows, 0 ≤ r.household_weight) : 0 ≤ totalWeight rows := by
  refine List.sum_nonneg ?_
  intro x hx
  obtain ⟨r, hr, rfl⟩ := List.mem_map.mp hx
  exact h r hr

theorem weightedChange_eq_zero {rows : List DecileRow}
    (hn : ∀ r ∈ rows, 0 ≤ r.household_weight) (hz : totalWeight rows = 0) :
    weightedChange rows = 0 := by
  have hz' : (rows.map (fun s => s.household_weight)).sum = 0 := hz
  have hall : ∀ r ∈ rows, r.household_weight = 0 := by
    intro r hr
    refine sum_eq_zero_all_zero (l := rows.map (fun s => s.household_weight))
      ?_ hz' r.household_weight (List.mem_map_of_mem _ hr)
    intro x hx
    obtain ⟨s, hs, rfl⟩ := List.mem_map.mp hx
    exact hn s hs
  apply List.sum_eq_zero
  intro x hx
  obtain ⟨r, hr, rfl⟩ := List.mem_map.mp hx
  rw [hall r hr, mul_zero]

theorem sum_map_ite_add {α : Type} [DecidableEq α] (L : List α) (a : α)
    (g : α → Rat) (c : Rat) (hNd : L.Nodup) (ha : a ∈ L) :
    (L.map (fun d => if a = d then c + g d else g d)).sum
      = c + (L.map g).sum := by
  induction L with
  | nil => cases ha
  | cons b t ih =>
    rcases List.mem_cons.mp ha with rfl | hat
    · have hnotin : a ∉ t := (List.nodup_cons.mp hNd).1
      rw [List.map_cons, List.sum_cons, if_pos rfl]
      have hmapeq : (t.map (fun d => if a = d then c + g d else g d))
          = t.map g := by
        apply List.map_congr_left
        intro d hdmem
        rw [if_neg]
        intro h
        exact hnotin (h ▸ hdmem)
      rw [hmapeq, List.map_cons, List.sum_cons, add_assoc]
    · have hb : a ≠ b := by
        rintro rfl
        exact (List.nodup_cons.mp hNd).1 hat
      rw [List.map_cons, List.sum_cons, if_neg hb, List.map_cons,
        List.sum_cons, ih (List.nodup_cons.mp hNd).2 hat]
      ring

theorem decileGroup_cons (r : DecileRow) (t : List DecileRow) (d : Int) :
    decileGroup (r :: t) d
      = if r.household_income_decile = d then r :: decileGroup t d
        else decileGroup t d := by
  unfold decileGroup
  rw [List.filter_cons]
  by_cases h : r.household_income_decile = d
  · simp [h]
  · simp [h]

/-- Partition identity: summing any row function over the ten decile
groups recovers the sum over the whole table, provided every row is
classified in a decile 1-10. -/
theorem sum_over_decile_groups (df : List DecileRow) (f : DecileRow → Rat)
    (hdec : ∀ r ∈ df, r.household_income_decile ∈ decileNums) :
    (decileNums.map (fun d => ((decileGroup df d).map f).sum)).sum
      = (df.map f).sum := by
  induction df with
  | nil => simp [decileGroup]
  | cons r t ih =>
    have hr : r.household_income_decile ∈ decileNums :=
      hdec r (List.mem_cons_self r t)
    have ht : ∀ x ∈ t, x.household_income_decile ∈ decileNums :=
      fun x hx => hdec x (List.mem_cons_of_mem r hx)
    have hmap : decileNums.map
          (fun d => ((decileGroup (r :: t) d).map f).sum)
        = decileNums.map (fun d =>
            if r.household_income_decile = d then
              f r + ((decileGroup t d).map f).sum
            else ((decileGroup t d).map f).sum) := by
      apply List.map_congr_left
      intro d hdm
      rw [decileGroup_cons]
      by_cases h : r.household_income_decile = d
      · rw [if_pos h, if_pos h, List.map_cons, List.sum_cons]
      · rw [if_neg h, if_neg h]
    rw [hmap, sum_map_ite_add decileNums r.household_income_decile _ (f r)
      (by decide) hr, ih ht, List.map_cons, List.sum_cons]

theorem totalWeight_mul_decileAvg (df : List DecileRow) (d : Int)
    (hw : ∀ r ∈ df, 0 ≤ r.household_weight) :
    totalWeight (decileGroup df d) * decileAvg df d
      = weightedChange (decileGroup df d) := by
  unfold decileAvg
  by_cases h : 0 < totalWeight (decileGroup df d)
  · rw [if_pos h, mul_comm, div_mul_cancel₀ _ (ne_of_gt h)]
  · rw [if_neg h, mul_zero]
    have hmem : ∀ r ∈ decileGroup df d, 0 ≤ r.household_weight :=
      fun r hr => hw r (List.mem_of_mem_filter hr)
    have h0 : totalWeight (decileGroup df d) = 0 :=
      le_antisymm (not_lt.mp h) (totalWeight_nonneg hmem)
    exact (weightedChange_eq_zero hmem h0).symm

/-- C7: for a decile table with nonnegative weights and positive total
weight, the "all" row is the last row emitted, its value is the
weight-aggregated average `Σ(w·Δy)/Σ(w)` over all units, and that
equals the weighted mean of the per-decile averages weighted by each
decile's total weight. -/
theorem claim7_overall_consistency (rid rname : String) (year : Int)
    (df : List DecileRow) (hw : ∀ r ∈ df, 0 ≤ r.household_weight)
    (hpos : 0 < totalWeight df)
    (hdec : ∀ r ∈ df, r.household_income_decile ∈ decileNums) :
    (WinnersLosersCalculator.calculate_from_dataframe rid rname year
        df).getLast?
      = some (WinnersLosersCalculator.overallRow rid rname year df)
    ∧ (WinnersLosersCalculator.overallRow rid rname year df).avg_change
      = weightedChange df / totalWeight df
    ∧ weightedChange df / totalWeight df = decileWeightedMean df := by
  refine ⟨by simp [WinnersLosersCalculator.calculate_from_dataframe], ?_, ?_⟩
  · simp [WinnersLosersCalculator.overallRow, hpos]
  · have hnum : (decileNums.map
        (fun d => totalWeight (decileGroup df d) * decileAvg df d)).sum
        = weightedChange df := by
      have h1 : decileNums.map
            (fun d => totalWeight (decileGroup df d) * decileAvg df d)
          = decileNums.map (fun d => ((decileGroup df d).map
              (fun r => r.income_change * r.household_weight)).sum) := by
        apply List.map_congr_left
        intro d hdm
        rw [totalWeight_mul_decileAvg df d hw]
        rfl
      rw [h1, sum_over_decile_groups df _ hdec]
      rfl
    have hden : (decileNums.map
        (fun d => totalWeight (decileGroup df d))).sum = totalWeight df := by
      have h1 : decileNums.map (fun d => totalWeight (decileGroup df d))
          = decileNums.map (fun d => ((decileGroup df d).map
              (fun r => r.household_weight)).sum) := rfl
      rw [h1, sum_over_decile_groups df _ hdec]
      rfl
    rw [decileWeightedMean, hnum, hden]

/-- C7 witness: the spec's end-to-end scenario — weights `[1, 1]`,
baseline `[100, 200]`, reform `[110, 180]` — where the overall average
is `(10 − 20)/2 = −5`. -/
theorem claim7_witness :
    ((WinnersLosersCalculator.calculate_from_dataframe exReformId
        exReformName 2026 claim7WitDf).getLast?
      = some (WinnersLosersCalculator.overallRow exReformId exReformName 2026
          claim7WitDf)
    ∧ (WinnersLosersCalculator.overallRow exReformId exReformName 2026
        claim7WitDf).avg_change
      = weightedChange claim7WitDf / totalWeight claim7WitDf
    ∧ weightedChange claim7WitDf / totalWeight claim7WitDf
      = decileWeightedMean claim7WitDf)
    ∧ weightedChange claim7WitDf / totalWeight claim7WitDf = -5 := by
  constructor
  · exact claim7_overall_consistency exReformId exReformName 2026 claim7WitDf
      (by simp [claim7WitDf])
      (by norm_num [totalWeight, claim7WitDf])
      (by decide)
  · norm_num [weightedChange, totalWeight, claim7WitDf]

/-! ## Claim C8 -/

theorem clampNonneg_map_mul (c : Rat) (hc : 0 ≤ c) (xs : List Rat) :
    clampNonneg (xs.map (fun x => c * x))
      = (clampNonneg xs).map (fun x => c * x) := by
  unfold clampNonneg
  rw [List.map_map, List.map_map]
  apply List.map_congr_left
  intro x hx
  show max (c * x) 0 = c * max x 0
  rw [mul_max_of_nonneg x 0 hc, mul_zero]

theorem weightSum_scale (c : Rat) (ps : List (Rat × Rat)) :
    weightSum (ps.map (fun p => (c * p.1, p.2))) = weightSum ps := by
  unfold weightSum
  rw [List.map_map]
  rfl

theorem weightedValueSum_scale (c : Rat) (ps : List (Rat × Rat)) :
    weightedValueSum (ps.map (fun p => (c * p.1, p.2)))
      = c * weightedValueSum ps := by
  unfold weightedValueSum
  rw [List.map_map]
  have h1 : ((fun p : Rat × Rat => p.1 * p.2) ∘
        fun p : Rat × Rat => (c * p.1, p.2))
      = fun p : Rat × Rat => c * (p.1 * p.2) := by
    funext p
    show c * p.1 * p.2 = c * (p.1 * p.2)
    ring
  rw [h1]
  exact List.sum_map_mul_left ps _ c

theorem madSum_scale (c : Rat) (hc : 0 < c) (ps : List (Rat × Rat)) :
    madSum (ps.map (fun p => (c * p.1, p.2))) = c * madSum ps := by
  unfold madSum
  rw [List.map_map]
  have houter : ∀ p ∈ ps,
      ((fun p : Rat × Rat => ((ps.map (fun r => (c * r.1, r.2))).map
          (fun q => p.2 * q.2 * |p.1 - q.1|)).sum) ∘
        (fun r : Rat × Rat => (c * r.1, r.2))) p
      = c * (ps.map (fun q => p.2 * q.2 * |p.1 - q.1|)).sum := by
    intro p hp
    show ((ps.map (fun r => (c * r.1, r.2))).map
      (fun q => p.2 * q.2 * |c * p.1 - q.1|)).sum = _
    rw [List.map_map]
    have hin : ∀ q ∈ ps,
        ((fun q : Rat × Rat => p.2 * q.2 * |c * p.1 - q.1|) ∘
          (fun r : Rat × Rat => (c * r.1, r.2))) q
        = c * (p.2 * q.2 * |p.1 - q.1|) := by
      intro q hq
      show p.2 * q.2 * |c * p.1 - c * q.1| = _
      rw [← mul_sub, abs_mul, abs_of_pos hc]
      ring
    rw [List.map_congr_left hin]
    exact List.sum_map_mul_left ps _ c
  rw [List.map_congr_left houter]
  exact List.sum_map_mul_left ps _ c

theorem giniPairs_scale (c : Rat) (hc : 0 < c) (ps : List (Rat × Rat)) :
    giniPairs (ps.map (fun p => (c * p.1, p.2))) = giniPairs ps := by
  unfold giniPairs npDiv
  rw [madSum_scale c hc, weightSum_scale, weightedValueSum_scale]
  have hden : 2 * weightSum ps * (c * weightedValueSum ps)
      = c * (2 * weightSum ps * weightedValueSum ps) := by ring
  rw [hden]
  by_cases h : 2 * weightSum ps * weightedValueSum ps = 0
  · rw [h, mul_zero]
    simp
  · rw [if_neg (mul_ne_zero (ne_of_gt hc) h), if_neg h,
      mul_div_mul_left _ _ (ne_of_gt hc)]

theorem gini_scale (c : Rat) (hc : 0 < c) (xs w : List Rat) :
    gini (xs.map (fun x => c * x)) w = gini xs w := by
  unfold gini
  have hzip : (xs.map (fun x => c * x)).zip w
      = (xs.zip w).map (fun p => (c * p.1, p.2)) := by
    rw [List.zip_map_left]
    apply List.map_congr_left
    intro p hp
    rfl
  rw [hzip, giniPairs_scale c hc]

/-- C8: multiplying every baseline and reform equivalised income by a
positive constant leaves `gini_change` unchanged — the non-negative
clamp commutes with the scaling and the weighted Gini is homogeneous of
degree zero. -/
theorem claim8_gini_scale_invariance
    (baseline_equiv reformed_equiv hh_weight hh_count : List Rat) (c : Rat)
    (hc : 0 < c) :
    giniChangeFromArrays (baseline_equiv.map (fun x => c * x))
      (reformed_equiv.map (fun x => c * x)) hh_weight hh_count
    = giniChangeFromArrays baseline_equiv reformed_equiv hh_weight
        hh_count := by
  unfold giniChangeFromArrays
  simp only [clampNonneg_map_mul c hc.le, gini_scale c hc]

/-- C8 witness: the invariance theorem applied to concrete arrays with
scale factor 2. -/
theorem claim8_witness :
    giniChangeFromArrays (claim8EquivBase.map (fun x => 2 * x))
      (claim8EquivReform.map (fun x => 2 * x)) claim8Weights claim8Weights
    = giniChangeFromArrays claim8EquivBase claim8EquivReform claim8Weights
        claim8Weights :=
  claim8_gini_scale_invariance claim8EquivBase claim8EquivReform
    claim8Weights claim8Weights 2 (by norm_num)

/-! ## Claim C5 -/

theorem maskedWeights_sum_zero (n : Int) (m : Bool) :
    ∀ (hhs : List Household) (weights : List Rat),
      (∀ x ∈ hhs, DemographicConstituencyCalculator.demMask n m x = false) →
      (DemographicConstituencyCalculator.maskedWeights hhs weights n m).sum
        = 0 := by
  intro hhs
  induction hhs with
  | nil =>
    intro weights h
    simp [DemographicConstituencyCalculator.maskedWeights]
  | cons a t ih =>
    intro weights h
    cases weights with
    | nil => simp [DemographicConstituencyCalculator.maskedWeights]
    | cons w ws =>
      have ha := h a (List.mem_cons_self a t)
      have ht : ∀ x ∈ t,
          DemographicConstituencyCalculator.demMask n m x = false :=
        fun x hx => h x (List.mem_cons_of_mem a hx)
      show (List.zipWith _ (a :: t) (w :: ws)).sum = 0
      rw [List.zipWith_cons_cons, List.sum_cons]
      have hz : (DemographicConstituencyCalculator.maskedWeights t ws n
          m).sum = 0 := ih ws ht
      simp [ha, hz]
      exact hz

theorem demoRow_eq_some {rid : String} {year : Int} {g : Geo}
    {hhs : List Household} {n : Int} {m : Bool} {r : DemoRow}
    (h : DemographicConstituencyCalculator.demoRow rid year g hhs n m
      = some r) :
    (DemographicConstituencyCalculator.maskedWeights hhs g.weights n m).sum
      ≠ 0
    ∧ r.household_count
      = (DemographicConstituencyCalculator.maskedWeights hhs g.weights n
          m).sum
    ∧ r.num_children = childLabel n ∧ r.is_married = m := by
  simp only [DemographicConstituencyCalculator.demoRow] at h
  by_cases h1 : hhs.countP (DemographicConstituencyCalculator.demMask n m)
      = 0
  · rw [if_pos h1] at h
    exact absurd h (by simp)
  · rw [if_neg h1] at h
    by_cases h2 : (DemographicConstituencyCalculator.maskedWeights hhs
        g.weights n m).sum = 0
    · rw [if_pos h2] at h
      exact absurd h (by simp)
    · rw [if_neg h2] at h
      simp only [Option.some.injEq] at h
      refine ⟨h2, ?_, ?_, ?_⟩ <;> simp [← h]

theorem demoRow_none_of_countP_zero {rid : String} {year : Int} {g : Geo}
    {hhs : List Household} {n : Int} {m : Bool}
    (h1 : hhs.countP (DemographicConstituencyCalculator.demMask n m) = 0) :
    DemographicConstituencyCalculator.demoRow rid year g hhs n m = none := by
  simp only [DemographicConstituencyCalculator.demoRow]
  rw [if_pos h1]

theorem demoRow_isSome_of_sum_ne (rid : String) (year : Int) {g : Geo}
    {hhs : List Household} {n : Int} {m : Bool}
    (h2 : (DemographicConstituencyCalculator.maskedWeights hhs g.weights n
        m).sum ≠ 0) :
    ∃ r, DemographicConstituencyCalculator.demoRow rid year g hhs n m
      = some r := by
  have h1 : hhs.countP (DemographicConstituencyCalculator.demMask n m)
      ≠ 0 := by
    intro h0
    apply h2
    apply maskedWeights_sum_zero
    intro x hx
    have hx0 := List.countP_eq_zero.mp h0 x hx
    simpa using hx0
  have hsome : (DemographicConstituencyCalculator.demoRow rid year g hhs n
      m).isSome := by
    simp only [DemographicConstituencyCalculator.demoRow]
    rw [if_neg h1, if_neg h2]
    rfl
  exact Option.isSome_iff_exists.mp hsome

/-- C5: a (geography, children-bucket, married) combination yields an
output row exactly when its total geography-specific masked weight is
nonzero, the emitted `household_count` is that masked-weight sum, and
in the single-geography all-unmarried-five-children scenario exactly
one row is returned, labelled "4+" / unmarried, with `household_count`
equal to the summed geography-specific weight of those households. -/
theorem claim5_demographic_emission (rid : String) (year : Int)
    (geos : List Geo) (hhs : List Household) :
    (∀ r ∈ DemographicConstituencyCalculator.calcRows rid year geos hhs,
      ∃ g ∈ geos, ∃ n ∈ childBuckets, ∃ m ∈ marriedBuckets,
        DemographicConstituencyCalculator.demoRow rid year g hhs n m
          = some r
        ∧ (DemographicConstituencyCalculator.maskedWeights hhs g.weights n
            m).sum ≠ 0
        ∧ r.household_count
          = (DemographicConstituencyCalculator.maskedWeights hhs g.weights n
              m).sum)
    ∧ (∀ g ∈ geos, ∀ n ∈ childBuckets, ∀ m ∈ marriedBuckets,
        (DemographicConstituencyCalculator.maskedWeights hhs g.weights n
          m).sum ≠ 0 →
        ∃ r ∈ DemographicConstituencyCalculator.calcRows rid year geos hhs,
          DemographicConstituencyCalculator.demoRow rid year g hhs n m
            = some r)
    ∧ ((∀ x ∈ hhs, x.num_children = 5 ∧ x.is_married = false) →
        ∀ g : Geo,
        (DemographicConstituencyCalculator.maskedWeights hhs g.weights 4
          false).sum ≠ 0 →
        ∃ r : DemoRow,
          DemographicConstituencyCalculator.calcRows rid year [g] hhs = [r]
          ∧ r.num_children = fourPlusLabel ∧ r.is_married = false
          ∧ r.household_count
            = (DemographicConstituencyCalculator.maskedWeights hhs g.weights
                4 false).sum) := by
  refine ⟨?_, ?_, ?_⟩
  · intro r hr
    obtain ⟨g, hg, hrest⟩ := List.mem_flatMap.mp hr
    obtain ⟨n, hn, hmrest⟩ := List.mem_flatMap.mp hrest
    obtain ⟨m, hmm, hsome⟩ := List.mem_filterMap.mp hmrest
    obtain ⟨hne, hcount, -, -⟩ := demoRow_eq_some hsome
    exact ⟨g, hg, n, hn, m, hmm, hsome, hne, hcount⟩
  · intro g hg n hn m hmm hne
    obtain ⟨r, hr⟩ := demoRow_isSome_of_sum_ne rid year hne
    refine ⟨r, ?_, hr⟩
    exact List.mem_flatMap.mpr ⟨g, hg, List.mem_flatMap.mpr
      ⟨n, hn, List.mem_filterMap.mpr ⟨m, hmm, hr⟩⟩⟩
  · intro hall g hne
    have hcap : ∀ x ∈ hhs,
        DemographicConstituencyCalculator.childCap x.num_children = 4 := by
      intro x hx
      rw [(hall x hx).1]
      decide
    have hmask : ∀ x ∈ hhs, ∀ n : Int, ∀ m : Bool,
        DemographicConstituencyCalculator.demMask n m x
          = (((4 : Int) == n) && (false == m)) := by
      intro x hx n m
      unfold DemographicConstituencyCalculator.demMask
      rw [hcap x hx, (hall x hx).2]
    have hnone : ∀ n : Int, ∀ m : Bool,
        (((4 : Int) == n) && (false == m)) = false →
        DemographicConstituencyCalculator.demoRow rid year g hhs n m
          = none := by
      intro n m hfalse
      apply demoRow_none_of_countP_zero
      apply List.countP_eq_zero.mpr
      intro x hx
      rw [hmask x hx n m, hfalse]
      simp
    obtain ⟨r, hr4⟩ := demoRow_isSome_of_sum_ne rid year hne
    obtain ⟨-, hcount, hlabel, hmarr⟩ := demoRow_eq_some hr4
    refine ⟨r, ?_, hlabel.trans (by decide), hmarr, hcount⟩
    have h0t := hnone 0 true (by decide)
    have h0f := hnone 0 false (by decide)
    have h1t := hnone 1 true (by decide)
    have h1f := hnone 1 false (by decide)
    have h2t := hnone 2 true (by decide)
    have h2f := hnone 2 false (by decide)
    have h3t := hnone 3 true (by decide)
    have h3f := hnone 3 false (by decide)
    have h4t := hnone 4 true (by decide)
    simp [DemographicConstituencyCalculator.calcRows, childBuckets,
      marriedBuckets, h0t, h0f, h1t, h1f, h2t, h2f, h3t, h3f, h4t, hr4]

/-- C5 witness: the emission theorem's scenario part applied to one
geography with weights `[3, 4]` and two unmarried five-children
households. -/
theorem claim5_witness :
    ∃ r : DemoRow,
      DemographicConstituencyCalculator.calcRows exReformId 2026 [claim5Geo]
        claim5Hhs = [r]
      ∧ r.num_children = fourPlusLabel ∧ r.is_married = false
      ∧ r.household_count
        = (DemographicConstituencyCalculator.maskedWeights claim5Hhs
            claim5Geo.weights 4 false).sum :=
  (claim5_demographic_emission exReformId 2026 [claim5Geo] claim5Hhs).2.2
    (by decide) claim5Geo
    (by norm_num [DemographicConstituencyCalculator.maskedWeights,
      DemographicConstituencyCalculator.demMask,
      DemographicConstituencyCalculator.childCap, claim5Hhs, claim5Geo])

end ScottishBudget
